import Mathlib

/-!
Verification development for a Flask pass-through proxy in front of PokeAPI.

The Python sources (`app.py`, `main.py`, `pkapp/db/logging.py`,
`pkapp/utils/url.py`) are shallowly embedded below: JSON values become the
inductive `Pk.Json` (numbers are modelled as integers, which covers every
value the routes inspect), HTTP and the SQLite log store become explicit
state passed through the handlers, and every Python `try/except` becomes an
`Except`/`Option` that the embedding eliminates exactly where the source
catches.
-/

namespace Pk

/-- JSON values as returned by `requests.Response.json()`.  Numbers are
modelled as `Int` (every numeric field the code touches is an integer id,
count or rate).  Objects keep insertion order, as Python dicts do. -/
inductive Json where
  | null : Json
  | bool : Bool → Json
  | num : Int → Json
  | str : String → Json
  | arr : List Json → Json
  | obj : List (String × Json) → Json

/- Python `==` between two JSON values (structural; the `True == 1`
numeric crossover of Python is irrelevant on the string/int domain the
code compares). -/
mutual

def jeq (x y : Json) : Bool :=
  match x, y with
  | .str u, .str v => u == v
  | .num u, .num v => u == v
  | .bool u, .bool v => u == v
  | .null, .null => true
  | .arr u, .arr v => jeqList u v
  | .obj u, .obj v => jeqFields u v
  | _, _ => false

def jeqList (u v : List Json) : Bool :=
  match u, v with
  | a :: u1, b :: v1 => if jeq a b then jeqList u1 v1 else false
  | [], [] => true
  | _, _ => false

def jeqFields (u v : List (String × Json)) : Bool :=
  match u, v with
  | e :: u1, f :: v1 =>
    if e.fst == f.fst then (if jeq e.snd f.snd then jeqFields u1 v1 else false)
    else false
  | [], [] => true
  | _, _ => false

end

/-- `dict.get(key)` on a JSON object: first binding wins, `none` when the
key is absent or the value is not an object. -/
def jsonGet (j : Json) (k : String) : Option Json :=
  match j with
  | .obj kvs => (kvs.find? (fun p => p.1 == k)).map (fun p => p.2)
  | _ => none

/-- `payload.get(key)` where a missing key yields Python `None` (JSON null). -/
def jsonGetD (j : Json) (k : String) : Json :=
  (jsonGet j k).getD .null

/-- Association-list lookup used on an object's field list directly. -/
def fieldGet (kvs : List (String × Json)) (k : String) : Option Json :=
  ((kvs.find? (fun p => p.1 == k))).map (fun p => p.2)

/-- Python truthiness of a JSON value (`if v:`). -/
def jtruthy : Json → Bool
  | .null => false
  | .bool b => b
  | .num n => !(n == 0)
  | .str s => !(s == "")
  | .arr l => !l.isEmpty
  | .obj l => !l.isEmpty

/- Python `str()` / f-string rendering of a JSON value, and `repr` for
values nested inside containers. -/
mutual

def pyStr : Json → String
  | .str s => s
  | j => pyRepr j

def pyRepr : Json → String
  | .null => "None"
  | .bool b => if b then "True" else "False"
  | .num n => toString n
  | .str s => "\x27" ++ s ++ "\x27"
  | .arr l => "[" ++ pyReprList l ++ "]"
  | .obj l => "\x7b" ++ pyReprFields l ++ "\x7d"

def pyReprList : List Json → String
  | [] => ""
  | [x] => pyRepr x
  | x :: xs => pyRepr x ++ ", " ++ pyReprList xs

def pyReprFields : List (String × Json) → String
  | [] => ""
  | [(k, v)] => "\x27" ++ k ++ "\x27: " ++ pyRepr v
  | (k, v) :: xs => "\x27" ++ k ++ "\x27: " ++ pyRepr v ++ ", " ++ pyReprFields xs

end

/-- JSON string escaping for `json.dumps` (common escapes; exotic control
characters do not occur in the payloads the claims touch). -/
def jsonEscapeChar (c : Char) : String :=
  if c == '"' then "\\\""
  else if c == '\\' then "\\\\"
  else if c == '\n' then "\\n"
  else if c == '\t' then "\\t"
  else if c == '\r' then "\\r"
  else if c == '\x0c' then "\\f"
  else if c == '\x08' then "\\b"
  else String.singleton c

def jsonEscape (s : String) : String :=
  s.foldl (fun acc c => acc ++ jsonEscapeChar c) ""

/- `json.dumps(payload, ensure_ascii=False)` with the default separators. -/
mutual

def dumps : Json → String
  | .null => "null"
  | .bool b => if b then "true" else "false"
  | .num n => toString n
  | .str s => "\"" ++ jsonEscape s ++ "\""
  | .arr l => "[" ++ dumpsList l ++ "]"
  | .obj l => "\x7b" ++ dumpsFields l ++ "\x7d"

def dumpsList : List Json → String
  | [] => ""
  | [x] => dumps x
  | x :: xs => dumps x ++ ", " ++ dumpsList xs

def dumpsFields : List (String × Json) → String
  | [] => ""
  | [(k, v)] => "\"" ++ jsonEscape k ++ "\": " ++ dumps v
  | (k, v) :: xs => "\"" ++ jsonEscape k ++ "\": " ++ dumps v ++ ", " ++ dumpsFields xs

end

/-- Python `"sep".join(parts)`. -/
def pyJoin (sep : String) : List String → String
  | [] => ""
  | [s] => s
  | s :: rest => s ++ sep ++ pyJoin sep rest

/-- Python `str.strip()`'s default whitespace set (ASCII; exotic Unicode
space characters do not occur in route identifiers). -/
def pySpace (c : Char) : Bool :=
  c == ' ' || c == '\t' || c == '\n' || c == '\r' || c == '\x0b' || c == '\x0c'

/-- `name_or_id.strip().lower()`. -/
def pyLowerStrip (s : String) : String :=
  String.mk (((((s.data.dropWhile pySpace).reverse.dropWhile pySpace).reverse).map
    Char.toLower))

/-- The `{error: msg}` envelope the handlers synthesize. -/
def errJson (msg : String) : Json := .obj [("error", .str msg)]

-- ==================== constants from app.py ====================

def BASE_URL : String := "https://pokeapi.co/api/v2"

def SPRITE_URL : String :=
  "https://raw.githubusercontent.com/PokeAPI/sprites/master/sprites"

def SPRITE_EXT : String := "png"

/-- `POKEAPI_BASE` from main.py (used by the bespoke pokemon routes). -/
def POKEAPI_BASE : String := "https://pokeapi.co/api/v2/pokemon/"

/-- The fixed resource-kind allow-list `ENDPOINTS` from app.py. -/
def ENDPOINTS : List String :=
  [ "ability", "berry", "berry-firmness", "berry-flavor", "characteristic",
    "contest-effect", "contest-type", "egg-group", "encounter-condition",
    "encounter-condition-value", "encounter-method", "evolution-chain",
    "evolution-trigger", "gender", "generation", "growth-rate", "item",
    "item-attribute", "item-category", "item-fling-effect", "item-pocket",
    "language", "location", "location-area", "machine", "move",
    "move-ailment", "move-battle-style", "move-category", "move-damage-class",
    "move-learn-method", "move-target", "nature", "pal-park-area",
    "pokeathlon-stat", "pokedex", "pokemon", "pokemon-color", "pokemon-form",
    "pokemon-habitat", "pokemon-shape", "pokemon-species", "region", "stat",
    "super-contest-effect", "type", "version", "version-group" ]

/-- Python truthiness of an optional string argument (`if resource_id or
subresource:` in `api_url_build`; `None` and `""` are falsy). -/
def truthyOptStr : Option String → Bool
  | none => false
  | some s => !(s == "")

/-- `api_url_build` (app.py).  `validate_endpoint` raises `ValueError` for
an endpoint outside `ENDPOINTS`; the raise is modelled as `Except.error`
carrying the message.  The `resource_id` type check always passes for an
optional string. -/
def apiUrlBuild (endpoint : String) (resourceId : Option String)
    (subresource : Option String) : Except String String :=
  if ENDPOINTS.contains endpoint then
    let parts : List String :=
      [BASE_URL, endpoint]
        ++ (match resourceId with | some r => [r] | none => [])
        ++ (match subresource with | some s => [s] | none => [])
    .ok (pyJoin "/" parts
          ++ (if truthyOptStr resourceId || truthyOptStr subresource then "/" else ""))
  else
    .error ("Unknown API endpoint \x27" ++ endpoint ++ "\x27")

-- ==================== sprite builders ====================

/-- The boolean keyword options of `parse_sprite_options` (absent kwargs
default to `False`). -/
structure SpriteOpts where
  back : Bool := false
  shiny : Bool := false
  female : Bool := false
  model : Bool := false
  other : Bool := false
  official_artwork : Bool := false
  dream_world : Bool := false
  berries : Bool := false
  gen3 : Bool := false
  gen5 : Bool := false
  underground : Bool := false
deriving DecidableEq

/-- `parse_sprite_options` (app.py). -/
def parseSpriteOptions (spriteType : String) (o : SpriteOpts) : List String :=
  if spriteType == "pokemon" then
    if o.model then ["model"]
    else if o.other then
      ["other"]
        ++ (if o.official_artwork then ["official-artwork"] else [])
        ++ (if o.dream_world then ["dream-world"] else [])
    else
      (if o.back then ["back"] else [])
        ++ (if o.shiny then ["shiny"] else [])
        ++ (if o.female then ["female"] else [])
  else if spriteType == "items" then
    if o.berries then ["berries"]
    else if o.dream_world then ["dream-world"]
    else if o.gen3 then ["gen3"]
    else if o.gen5 then ["gen5"]
    else if o.underground then ["underground"]
    else []
  else []

/-- `f"{sprite_id}.{SPRITE_EXT}"` — the id is whatever JSON value
`data.get("id")` produced, rendered as Python `str()` does. -/
def spriteFilename (spriteId : Json) : String := pyStr spriteId ++ "." ++ SPRITE_EXT

/-- `sprite_url_build` (app.py). -/
def spriteUrlBuild (spriteType : String) (spriteId : Json) (o : SpriteOpts) : String :=
  pyJoin "/" ([SPRITE_URL, spriteType] ++ parseSpriteOptions spriteType o
    ++ [spriteFilename spriteId])

/-- `sprite_filepath_build` (app.py); `os.path.join` on relative POSIX
segments is a `"/"` join. -/
def sprite_filepath_build (spriteType : String) (spriteId : Json) (o : SpriteOpts) : String :=
  pyJoin "/" ([spriteType] ++ parseSpriteOptions spriteType o
    ++ [spriteFilename spriteId])

-- ==================== SQLite call log (app.py inline logger) ====================

/-- One row of the `api_calls` table as `_save_api_call` inserts it. -/
structure LogRecord where
  tsUtc : String
  endpoint : Option String
  identifier : Option String
  url : String
  status : Option Int
  durationMs : Option Int
  payloadJson : Option String
deriving DecidableEq

/-- Health of the SQLite sink when `_save_api_call` touches it:
`ok` (connect and INSERT succeed), `connectFault` (`sqlite3.connect`
raises), `noTable` (the `api_calls` table is absent, so the INSERT
raises `OperationalError`). -/
inductive StoreHealth where
  | ok : StoreHealth
  | connectFault : StoreHealth
  | noTable : StoreHealth
deriving DecidableEq

structure LogStore where
  health : StoreHealth
  records : List LogRecord

/-- `_save_api_call` (app.py).  Every exception path of the source is inside
a `try/except` that swallows it, so the embedding is a total function on the
store: a serialization fault only nulls the payload text, and any connect or
insert failure leaves the store untouched. -/
def saveApiCall (st : LogStore) (serFault : Bool) (ts : String)
    (endpoint identifier : Option String) (url : String)
    (status : Option Int) (durationMs : Option Int) (payload : Json) : LogStore :=
  let payloadText : Option String := if serFault then none else some (dumps payload)
  match st.health with
  | .ok => { st with records :=
      st.records ++ [⟨ts, endpoint, identifier, url, status, durationMs, payloadText⟩] }
  | .connectFault => st
  | .noTable => st

-- ==================== HTTP model and generic proxy ====================

/-- Outcome of `requests.get(url)`: either the GET completed with a status
code, a raw body text and the result of `r.json()` (`none` when the body is
not valid JSON), or it raised a `requests.RequestException`. -/
inductive HttpOutcome where
  | resp (status : Nat) (text : String) (jsonBody : Option Json) : HttpOutcome
  | exn (msg : String) : HttpOutcome

/-- A network: what `requests.get` yields for each URL. -/
def Net : Type := String → HttpOutcome

/-- Result of running a handler: the `(payload, status)` pair the route
returns, the log-store state afterwards, and the URLs actually fetched. -/
structure RunResult where
  resp : Json × Nat
  store : LogStore
  urls : List String

/-- `_proxy_endpoint` (app.py).  `validate_endpoint`/`api_url_build` raise
`ValueError` for an unknown endpoint, caught as `(error, 400)` before any
GET; a `requests.RequestException` becomes `(error, 500)`; otherwise the
body is parsed (falling back to the `{error: text}` envelope), the call is
logged best-effort, and `(payload, status)` is returned. -/
def proxyEndpoint (endpoint : String) (identifier : Option String)
    (net : Net) (st : LogStore) (serFault : Bool) (ts : String)
    (durationMs : Int) : RunResult :=
  match apiUrlBuild endpoint identifier none with
  | .error e => ⟨(errJson e, 400), st, []⟩
  | .ok url =>
    match net url with
    | .exn msg => ⟨(errJson msg, 500), st, [url]⟩
    | .resp status text jsonBody =>
      let payload := match jsonBody with
        | some j => j
        | none => errJson text
      let st' := saveApiCall st serFault ts (some endpoint) identifier url
        (some (Int.ofNat status)) (some durationMs) payload
      ⟨(payload, status), st', [url]⟩

-- ==================== list routes ====================

/-- The upstream URL built by `pokemon_list` (app.py): `limit`/`offset`
query parameters parsed as ints (`flask.request.args.get(..., type=int)`
falls back to the default on a missing or unparsable value) and appended
verbatim. -/
def pokemonListUrl (limitArg offsetArg : Option Int) : String :=
  let limit := limitArg.getD 20
  let offset := offsetArg.getD 0
  pyJoin "/" [BASE_URL, "pokemon"] ++ "?limit=" ++ toString limit
    ++ "&offset=" ++ toString offset

/-- The `berry` route (app.py): both `/api/berry` and `/api/berry/<id>`
delegate to `_proxy_endpoint("berry", identifier)`; the handler reads no
query parameters at all. -/
def berryRoute (identifier : Option String) (net : Net) (st : LogStore)
    (serFault : Bool) (ts : String) (durationMs : Int) : RunResult :=
  proxyEndpoint "berry" identifier net st serFault ts durationMs

-- ==================== summarize_pokemon (main.py) ====================

/-- Truthiness of `dict.get(k)`'s result (missing key is Python `None`). -/
def jtruthyO : Option Json → Bool
  | none => false
  | some v => jtruthy v

/-- Python `x is not None` for `dict.get(k)`'s result. -/
def notNoneO : Option Json → Bool
  | none => false
  | some .null => false
  | some _ => true

/-- `data.get(k) or dflt`. -/
def getOrTruthy (kvs : List (String × Json)) (k : String) (dflt : Json) : Json :=
  match fieldGet kvs k with
  | some v => if jtruthy v then v else dflt
  | none => dflt

/-- `", ".join(pieces)` over Python values: raises (`none`) unless every
piece is a string. -/
def pyJoinValues (sep : String) (l : List Json) : Option String := do
  let strs ← l.mapM (fun j => match j with | .str s => some s | _ => none)
  some (pyJoin sep strs)

/-- Python dict insertion: an existing equal key keeps its position and gets
the new value, otherwise the pair is appended. -/
def dictInsert : List (Json × Json) → Json → Json → List (Json × Json)
  | [], k, v => [(k, v)]
  | (k₀, v₀) :: rest, k, v =>
    if jeq k₀ k then (k₀, v) :: rest else (k₀, v₀) :: dictInsert rest k v

/-- One entry of the `stats` dict comprehension:
`s.get("stat", {}).get("name", "stat") : s.get("base_stat", 0)`.
`none` models the `AttributeError`/`TypeError` Python would raise on a
non-dict entry or an unhashable key. -/
def statsEntry (s : Json) : Option (Json × Json) :=
  match s with
  | .obj skvs =>
    match (fieldGet skvs "stat").getD (.obj []) with
    | .obj stkvs =>
      let name := (fieldGet stkvs "name").getD (.str "stat")
      match name with
      | .arr _ => none
      | .obj _ => none
      | _ => some (name, (fieldGet skvs "base_stat").getD (.num 0))
    | _ => none
  | _ => none

def buildStatsDict (l : List Json) : Option (List (Json × Json)) := do
  let entries ← l.mapM statsEntry
  some (entries.foldl (fun d p => dictInsert d p.1 p.2) [])

/-- The `types` loop body: `none` is a raise, `some none` contributes no
description, `some (some d)` contributes `d`. -/
def typeDesc (t : Json) : Option (Option String) :=
  match t with
  | .obj tk =>
    let slotv := fieldGet tk "slot"
    match (match fieldGet tk "type" with
           | some v => if jtruthy v then v else .obj []
           | none => .obj []) with
    | .obj tvk =>
      let tnamev := fieldGet tvk "name"
      if notNoneO slotv && jtruthyO tnamev then
        some (some ("[" ++ pyStr (slotv.getD .null) ++ "] " ++ pyStr (tnamev.getD .null)))
      else if jtruthyO tnamev then
        some (some (pyStr (tnamev.getD .null)))
      else
        some none
    | _ => none
  | _ => none

/-- The `abilities` loop body (the produced part must end up a string or
the final `", ".join` raises). -/
def abilityDesc (a : Json) : Option String :=
  match a with
  | .obj ak =>
    let anamev := (match fieldGet ak "ability" with
                   | some v => if jtruthy v then v else .obj []
                   | none => .obj [])
    match anamev with
    | .obj abk =>
      let aname := fieldGet abk "name"
      let hidden := fieldGet ak "is_hidden"
      let slotv := fieldGet ak "slot"
      let base? : Option String :=
        if jtruthyO aname then
          match aname with
          | some (.str s) => some s
          | _ => none
        else some "unknown"
      match base? with
      | none => none
      | some base =>
        let meta :=
          (if notNoneO hidden then ["hidden=" ++ pyStr (hidden.getD .null)] else [])
            ++ (if notNoneO slotv then ["slot=" ++ pyStr (slotv.getD .null)] else [])
        some (base ++ (if meta.isEmpty then "" else " (" ++ pyJoin ", " meta ++ ")"))
    | _ => none
  | _ => none

/-- The `held_items` loop body: `(hi.get("item") or {}).get("name")`,
kept as `str(iname)` when truthy. -/
def heldItemName (hi : Json) : Option (Option String) :=
  match hi with
  | .obj hk =>
    match (match fieldGet hk "item" with
           | some v => if jtruthy v then v else .obj []
           | none => .obj []) with
    | .obj ik =>
      let iname := fieldGet ik "name"
      if jtruthyO iname then some (some (pyStr (iname.getD .null))) else some none
    | _ => none
  | _ => none

/-- The `forms` loop body: `f.get("name")`, kept as `str(fname)` when truthy. -/
def formName (f : Json) : Option (Option String) :=
  match f with
  | .obj fk =>
    let fname := fieldGet fk "name"
    if jtruthyO fname then some (some (pyStr (fname.getD .null))) else some none
  | _ => none

def spriteExtraKeys : List String :=
  [ "back_default", "front_shiny", "back_shiny", "front_female",
    "back_female", "front_shiny_female", "back_shiny_female" ]

/-- `summarize_pokemon` (main.py) as a total function; `none` models an
uncaught Python exception (only reachable on payloads shaped unlike a real
pokemon payload). -/
def summarizePokemonE (data : Json) : Option String :=
  match data with
  | .obj kvs => do
    let name := (fieldGet kvs "name").getD (.str "unknown")
    let pokeId := (fieldGet kvs "id").getD (.str "?")
    let height := (fieldGet kvs "height").getD (.str "?")
    let weight := (fieldGet kvs "weight").getD (.str "?")
    let baseExp := fieldGet kvs "base_experience"
    let isDefault := fieldGet kvs "is_default"
    let order := fieldGet kvs "order"
    let statsRaw ← (match fieldGet kvs "stats" with
      | none => some ([] : List Json)
      | some (.arr l) => some l
      | some _ => none)
    let stats ← buildStatsDict statsRaw
    let l0 : List String :=
      [ "Name: " ++ pyStr name, "ID: " ++ pyStr pokeId,
        "Height: " ++ pyStr height, "Weight: " ++ pyStr weight ]
      ++ (if notNoneO baseExp then ["Base experience: " ++ pyStr (baseExp.getD .null)] else [])
      ++ (if notNoneO order then ["Order: " ++ pyStr (order.getD .null)] else [])
      ++ (if notNoneO isDefault then ["Is default: " ++ pyStr (isDefault.getD .null)] else [])
    -- species
    let lSpecies ← (match getOrTruthy kvs "species" (.obj []) with
      | .obj [] => some ([] : List String)
      | .obj spk =>
        let spName := fieldGet spk "name"
        let spUrl := fieldGet spk "url"
        if jtruthyO spName || jtruthyO spUrl then do
          let pieces := ([spName, spUrl].filterMap id).filter jtruthy
          let joined ← pyJoinValues ", " pieces
          some ["Species: " ++ joined]
        else some []
      | _ => some [])
    -- encounters url
    let encountersUrl := fieldGet kvs "location_area_encounters"
    let lEnc : List String :=
      if jtruthyO encountersUrl then ["Encounters: " ++ pyStr (encountersUrl.getD .null)] else []
    -- types
    let lTypes ← (match getOrTruthy kvs "types" (.arr []) with
      | .arr [] => some ["Types: n/a"]
      | .arr typed => do
        let descs ← typed.mapM typeDesc
        let tDesc := descs.filterMap id
        some (if tDesc.isEmpty then [] else ["Types: " ++ pyJoin ", " tDesc])
      | _ => some ["Types: n/a"])
    -- abilities
    let lAbil ← (match getOrTruthy kvs "abilities" (.arr []) with
      | .arr [] => some ["Abilities: n/a"]
      | .arr abil => do
        let aDesc ← abil.mapM abilityDesc
        some (if aDesc.isEmpty then [] else ["Abilities: " ++ pyJoin ", " aDesc])
      | _ => some ["Abilities: n/a"])
    -- base stats
    let lStats : List String :=
      "Base stats:" :: stats.map (fun p => "  - " ++ pyStr p.1 ++ ": " ++ pyStr p.2)
    -- sprites
    let spritesv := getOrTruthy kvs "sprites" (.obj [])
    let lSprite : List String :=
      match spritesv with
      | .obj spk =>
        let sprite := fieldGet spk "front_default"
        if jtruthyO sprite then ["Sprite: " ++ pyStr (sprite.getD .null)] else []
      | _ => []
    let lSpriteMore : List String :=
      match spritesv with
      | .obj spk =>
        let extras := spriteExtraKeys.filterMap (fun k =>
          let v := fieldGet spk k
          if jtruthyO v then some (k ++ ": " ++ pyStr (v.getD .null)) else none)
        if extras.isEmpty then [] else
          "Sprites (more):" :: extras.map (fun e => "  - " ++ e)
      | _ => []
    -- held items
    let lHeld ← (match getOrTruthy kvs "held_items" (.arr []) with
      | .arr [] => some ([] : List String)
      | .arr his => do
        let names ← his.mapM heldItemName
        let itemNames := names.filterMap id
        some (if itemNames.isEmpty then [] else ["Held items: " ++ pyJoin ", " itemNames])
      | _ => some [])
    -- forms
    let lForms ← (match getOrTruthy kvs "forms" (.arr []) with
      | .arr [] => some ([] : List String)
      | .arr fs => do
        let names ← fs.mapM formName
        let formNames := names.filterMap id
        some (if formNames.isEmpty then [] else ["Forms: " ++ pyJoin ", " formNames])
      | _ => some [])
    -- cries
    let lCries : List String :=
      match getOrTruthy kvs "cries" (.obj []) with
      | .obj [] => []
      | .obj ck =>
        let latest := fieldGet ck "latest"
        let legacy := fieldGet ck "legacy"
        if jtruthyO latest || jtruthyO legacy then
          "Cries:"
            :: (if jtruthyO latest then ["  - latest: " ++ pyStr (latest.getD .null)] else [])
            ++ (if jtruthyO legacy then ["  - legacy: " ++ pyStr (legacy.getD .null)] else [])
        else []
      | _ => []
    -- past types
    let lPast : List String :=
      match getOrTruthy kvs "past_types" (.arr []) with
      | .arr [] => []
      | .arr ps => ["Past types entries: " ++ toString ps.length]
      | _ => []
    some (pyJoin "\n"
      (l0 ++ lSpecies ++ lEnc ++ lTypes ++ lAbil ++ lStats ++ lSprite
        ++ lSpriteMore ++ lHeld ++ lForms ++ lCries ++ lPast))
  | _ => none

-- ==================== bespoke pokemon routes (app.py) ====================

/-- Query-flag parsing of the sprite route:
`flask.request.args.get(k, "false").lower() == "true"`. -/
def parseSpriteArgs (args : String → Option String) : SpriteOpts :=
  let flag := fun k => ((args k).getD "false").toLower == "true"
  { back := flag "back", shiny := flag "shiny", female := flag "female",
    model := flag "model", other := flag "other",
    official_artwork := flag "official_artwork", dream_world := flag "dream_world" }

/-- The `options` dict echoed back by the sprite route, in source order. -/
def spriteOptsJson (o : SpriteOpts) : Json :=
  .obj [ ("back", .bool o.back), ("shiny", .bool o.shiny),
         ("female", .bool o.female), ("model", .bool o.model),
         ("other", .bool o.other), ("official_artwork", .bool o.official_artwork),
         ("dream_world", .bool o.dream_world) ]

/-- `GET /api/pokemon/<name_or_id>` (app.py).  `none` models an uncaught
`requests.RequestException` (the handler has no try/except around the GET). -/
def pokemonRoute (nameOrId : String) (net : Net) (st : LogStore)
    (serFault : Bool) (ts : String) (durationMs : Int) :
    Option ((Json × Nat) × LogStore) :=
  let url := POKEAPI_BASE ++ pyLowerStrip nameOrId
  match net url with
  | .exn _ => none
  | .resp status text jsonBody =>
    let payload := jsonBody.getD (errJson text)
    let st' := saveApiCall st serFault ts (some "pokemon") (some nameOrId) url
      (some (Int.ofNat status)) (some durationMs) payload
    some ((payload, status), st')

/-- `GET /api/pokemon/<name_or_id>/summary` (app.py).  On a non-200
upstream status the upstream payload (or the error envelope) is returned
with the upstream status; on 200 the payload is reshaped through
`summarize_pokemon` and returned with status 200 (`jsonify` default).
`none` models an uncaught exception (transport error, or `r.json()` on a
200 response with a non-JSON body). -/
def pokemonSummaryRoute (nameOrId : String) (net : Net) (st : LogStore)
    (serFault : Bool) (ts : String) (durationMs : Int) :
    Option ((Json × Nat) × LogStore) :=
  let url := POKEAPI_BASE ++ pyLowerStrip nameOrId
  match net url with
  | .exn _ => none
  | .resp status text jsonBody =>
    if status ≠ 200 then
      let payload := jsonBody.getD (errJson text)
      let st' := saveApiCall st serFault ts (some "pokemon") (some nameOrId) url
        (some (Int.ofNat status)) (some durationMs) payload
      some ((payload, status), st')
    else
      match jsonBody with
      | none => none
      | some data =>
        match summarizePokemonE data with
        | none => none
        | some text =>
          let st' := saveApiCall st serFault ts (some "pokemon") (some nameOrId) url
            (some (Int.ofNat status)) (some durationMs) data
          some ((Json.obj [ ("summary", .str text), ("name_or_id", .str nameOrId),
                            ("id", jsonGetD data "id") ], 200), st')

/-- `GET /api/pokemon/<name_or_id>/sprite` (app.py).  On a non-200 upstream
status the handler logs the upstream payload but answers
`({error: "Pokemon not found"}, 404)` regardless of the upstream code; on
200 it logs, then reads `data.get("id")` — which raises `AttributeError`
(uncaught, `none`) when the JSON body is not an object — and answers 200
with the sprite URL built from the query flags. -/
def pokemonSpriteRoute (nameOrId : String) (args : String → Option String)
    (net : Net) (st : LogStore) (serFault : Bool) (ts : String)
    (durationMs : Int) : Option ((Json × Nat) × LogStore) :=
  let url := POKEAPI_BASE ++ pyLowerStrip nameOrId
  match net url with
  | .exn _ => none
  | .resp status text jsonBody =>
    if status ≠ 200 then
      let payload := jsonBody.getD (errJson text)
      let st' := saveApiCall st serFault ts (some "pokemon") (some nameOrId) url
        (some (Int.ofNat status)) (some durationMs) payload
      some ((errJson "Pokemon not found", 404), st')
    else
      match jsonBody with
      | none => none
      | some data =>
        let st' := saveApiCall st serFault ts (some "pokemon") (some nameOrId) url
          (some (Int.ofNat status)) (some durationMs) data
        match data with
        | .obj _ =>
          let pokemonId := jsonGetD data "id"
          let opts := parseSpriteArgs args
          let spriteUrl := spriteUrlBuild "pokemon" pokemonId opts
          some ((Json.obj [ ("pokemon", .str nameOrId), ("id", pokemonId),
                            ("sprite_url", .str spriteUrl),
                            ("options", spriteOptsJson opts) ], 200), st')
        | _ => none

-- ==================== species reshaper (app.py) ====================

/-- One element of `flavor_text_entries` as the route reads it:
`e.get("language", {}).get("name")` and `e.get("flavor_text")`, both kept
raw. -/
structure FlavorEntry where
  languageName : Option Json
  flavorText : Option Json

/-- `e.get("language", {}).get("name")`, raising (`none`) when the entry or
a present `language` value is not a dict. -/
def decodeFlavorEntry (e : Json) : Option FlavorEntry :=
  match e with
  | .obj ek =>
    match fieldGet ek "language" with
    | none => some ⟨none, fieldGet ek "flavor_text"⟩
    | some (.obj lk) => some ⟨fieldGet lk "name", fieldGet ek "flavor_text"⟩
    | some _ => none
  | _ => none

/-- `payload.get("flavor_text_entries", [])` decoded entry-wise; the model
requires a list of dicts, the shape every species payload has. -/
def decodeEntries (kvs : List (String × Json)) : Option (List FlavorEntry) :=
  match fieldGet kvs "flavor_text_entries" with
  | none => some []
  | some (.arr l) => l.mapM decodeFlavorEntry
  | some _ => none

/-- The filter `e.get("language", {}).get("name") == "en"`. -/
def isEnEntry (fe : FlavorEntry) : Bool :=
  match fe.languageName with
  | some (.str s) => s == "en"
  | _ => false

/-- `text.replace(needle, " ")` for the one-character needles `"\n"` and
`"\f"` the species reshaper uses: each occurrence of the character becomes
one space. -/
def replaceChar (needle repl : Char) (s : String) : String :=
  String.mk (s.data.map (fun c => if c == needle then repl else c))

/-- `_get_latest_english_flavor_text` (app.py): last English entry in
upstream order, line breaks and form feeds replaced by spaces, `""` when no
English entry exists.  `none` models the raise on a present non-string
`flavor_text` of the selected entry. -/
def getLatestEnglishFlavorTextE (entries : List FlavorEntry) : Option String :=
  match (entries.filter isEnEntry).getLast? with
  | none => some ""
  | some fe =>
    match fe.flavorText with
    | none => some (replaceChar '\x0c' ' ' (replaceChar '\n' ' ' ""))
    | some (.str s) => some (replaceChar '\x0c' ' ' (replaceChar '\n' ' ' s))
    | some _ => none

/-- The fixed projection keys of the species summary, in source order. -/
def speciesSummaryFields : List String :=
  [ "id", "name", "order", "gender_rate", "capture_rate", "base_happiness",
    "is_baby", "is_legendary", "is_mythical", "hatch_counter",
    "has_gender_differences", "forms_switchable", "growth_rate", "egg_groups",
    "color", "shape", "evolves_from_species", "evolution_chain", "habitat",
    "generation", "names", "genera", "varieties" ]

/-- The summary dict built by `pokemon_species` (app.py) for `full=false`. -/
def speciesSummary (identifier : String) (kvs : List (String × Json))
    (flavorText : String) : Json :=
  .obj ((speciesSummaryFields.map (fun k => (k, (fieldGet kvs k).getD .null)))
    ++ [ ("flavor_text", .str flavorText),
         ("full_url", .str ("/api/pokemon-species/" ++ identifier ++ "?full=true")) ])

/-- `GET /api/pokemon-species/<identifier>` (app.py): proxies the species
kind, passes the result through untouched when the status is not 200 or
`full=true`, and otherwise projects it to the summary.  `none` models a
raise while reshaping (payload not shaped like a species object). -/
def pokemonSpeciesRoute (identifier : String) (full : Bool) (net : Net)
    (st : LogStore) (serFault : Bool) (ts : String) (durationMs : Int) :
    Option RunResult :=
  let r := proxyEndpoint "pokemon-species" (some identifier) net st serFault ts durationMs
  if r.resp.2 ≠ 200 || full then some r
  else
    match r.resp.1 with
    | .obj kvs =>
      match decodeEntries kvs with
      | none => none
      | some es =>
        match getLatestEnglishFlavorTextE es with
        | none => none
        | some txt => some { r with resp := (speciesSummary identifier kvs txt, r.resp.2) }
    | _ => none

-- ==================== evolution-chain flattener (app.py) ====================

/-- Decimal value of a digit run (the `int()` applied to the regex group). -/
def digitsToNat (cs : List Char) : Nat :=
  cs.foldl (fun n c => 10 * n + (c.toNat - 48)) 0

/-- `_extract_id_from_url` (app.py): the regex `/(\d+)/?$` applied to a
value that must be a string (anything else yields `None`): at most one
trailing slash is stripped, then a non-empty trailing digit run preceded by
a slash is the id. -/
def extractIdFromUrl (url : Option String) : Option Int :=
  match url with
  | none => none
  | some s =>
    let cs := s.data.reverse
    let cs1 := match cs with
      | '/' :: rest => rest
      | rest => rest
    let digitsRev := cs1.takeWhile Char.isDigit
    if digitsRev.isEmpty then none
    else
      match cs1.drop digitsRev.length with
      | '/' :: _ => some (Int.ofNat (digitsToNat digitsRev.reverse))
      | _ => none

/-- The raw condition fields of one `evolution_details` entry, as
`_summarize_evolution_conditions_py` reads them.  Absent/null fields are
`none`/`false`; nested `{name: ...}` references are flattened to the name. -/
structure EvoDetail where
  minLevel : Option Int := none
  itemName : Option String := none
  heldItemName : Option String := none
  triggerName : Option String := none
  timeOfDay : Option String := none
  minHappiness : Option Int := none
  minBeauty : Option Int := none
  minAffection : Option Int := none
  knownMoveName : Option String := none
  knownMoveTypeName : Option String := none
  locationName : Option String := none
  needsOverworldRain : Bool := false
  partySpeciesName : Option String := none
  partyTypeName : Option String := none
  relativePhysicalStats : Option Int := none
  tradeSpeciesName : Option String := none
  turnUpsideDown : Bool := false
deriving DecidableEq

def chPrefix (pat hay : List Char) : Bool :=
  match pat, hay with
  | [], _ => true
  | p :: ps, q :: qs => if p == q then chPrefix ps qs else false
  | _, [] => false

def chContains (pat hay : List Char) : Bool :=
  match hay with
  | [] => pat.isEmpty
  | c :: rest => if chPrefix pat (c :: rest) then true else chContains pat rest

/-- Python `"level-up" not in trig` (substring check). -/
def notContainsLevelUp (s : String) : Bool :=
  !(chContains "level-up".data s.data)

/-- The chips a single details entry contributes, in source order. -/
def condChips (d : EvoDetail) : List String :=
  (match d.minLevel with | some n => ["Lv " ++ toString n] | none => [])
  ++ (match d.itemName with
      | some s => if s == "" then [] else ["item: " ++ s] | none => [])
  ++ (match d.heldItemName with
      | some s => if s == "" then [] else ["holds: " ++ s] | none => [])
  ++ (match d.triggerName with
      | some s => if s ≠ "" && notContainsLevelUp s then [s] else [] | none => [])
  ++ (match d.timeOfDay with
      | some s => if s == "" then [] else [s] | none => [])
  ++ (match d.minHappiness with | some n => ["happiness ≥ " ++ toString n] | none => [])
  ++ (match d.minBeauty with | some n => ["beauty ≥ " ++ toString n] | none => [])
  ++ (match d.minAffection with | some n => ["affection ≥ " ++ toString n] | none => [])
  ++ (match d.knownMoveName with
      | some s => if s == "" then [] else ["knows: " ++ s] | none => [])
  ++ (match d.knownMoveTypeName with
      | some s => if s == "" then [] else ["move type: " ++ s] | none => [])
  ++ (match d.locationName with
      | some s => if s == "" then [] else ["at: " ++ s] | none => [])
  ++ (if d.needsOverworldRain then ["raining"] else [])
  ++ (match d.partySpeciesName with
      | some s => if s == "" then [] else ["party: " ++ s] | none => [])
  ++ (match d.partyTypeName with
      | some s => if s == "" then [] else ["party type: " ++ s] | none => [])
  ++ (match d.relativePhysicalStats with
      | some n => ["phys.stats: " ++ toString n] | none => [])
  ++ (match d.tradeSpeciesName with
      | some s => if s == "" then [] else ["trade for: " ++ s] | none => [])
  ++ (if d.turnUpsideDown then ["hold console upside-down"] else [])

/-- `_summarize_evolution_conditions_py` (app.py): an empty details list
yields `["level up"]`, otherwise the chips of the first entry, with the
`trig or "evolves"` fallback when no recognized field produced a chip. -/
def summarizeEvolutionConditions (details : List EvoDetail) : List String :=
  match details with
  | [] => ["level up"]
  | d :: _ =>
    let chips := condChips d
    if chips.isEmpty then
      [match d.triggerName with
       | some s => if s == "" then "evolves" else s
       | none => "evolves"]
    else chips

/-- The `species` reference of a chain node (`name` and `url`). -/
structure SpeciesRef where
  name : Option String
  url : Option String
deriving DecidableEq

/-- A well-formed evolution-chain node as `_build_evo_paths` consumes it:
a species reference, the `evolution_details` attached to the transition
into this node, and the ordered `evolves_to` children. -/
inductive EvoNode where
  | mk : Option SpeciesRef → List EvoDetail → List EvoNode → EvoNode

def EvoNode.species : EvoNode → Option SpeciesRef
  | .mk s _ _ => s

def EvoNode.evolutionDetails : EvoNode → List EvoDetail
  | .mk _ d _ => d

def EvoNode.evolvesTo : EvoNode → List EvoNode
  | .mk _ _ c => c

/-- One step record of a flattened path. -/
structure EvoStep where
  key : String
  name : Option String
  id : Option Int
  sprite : String
deriving DecidableEq

/-- One flattened root-to-leaf path; a link is the `conditions` chip list
of one transition. -/
structure EvoPath where
  steps : List EvoStep
  links : List (List String)
deriving DecidableEq

/-- The step derived from a node: key `f"{name}-{sid or 'x'}"`, the raw
name and id, and the sprite URL (empty when the id is missing or the falsy
`0`). -/
def mkStep (n : EvoNode) : EvoStep :=
  let name := match n.species with | some sp => sp.name | none => none
  let url := match n.species with | some sp => sp.url | none => none
  let sid := extractIdFromUrl url
  let sprite := match sid with
    | some i => if i == 0 then "" else spriteUrlBuild "pokemon" (.num i) {}
    | none => ""
  { key := (match name with | some s => s | none => "None") ++ "-"
        ++ (match sid with | some i => toString i | none => "x"),
    name := name, id := sid, sprite := sprite }

/- `_build_evo_paths` (app.py): depth-first recursion accumulating steps
and links; a node with no further evolutions emits one path. -/
mutual

def buildEvoPaths : EvoNode → List EvoStep → List (List String) → List EvoPath
  | .mk sp det children, accSteps, accLinks =>
    let stepsNext := accSteps ++ [mkStep (.mk sp det children)]
    match children with
    | [] => [⟨stepsNext, accLinks⟩]
    | c :: cs => buildEvoPathsList (c :: cs) stepsNext accLinks

def buildEvoPathsList : List EvoNode → List EvoStep → List (List String) → List EvoPath
  | [], _, _ => []
  | ev :: rest, stepsNext, accLinks =>
    let conds := summarizeEvolutionConditions ev.evolutionDetails
    buildEvoPaths ev stepsNext (accLinks ++ [conds])
      ++ buildEvoPathsList rest stepsNext accLinks

end

/- Number of leaves of a chain tree: the number of paths the flattener
should produce. -/
mutual

def EvoNode.leaves : EvoNode → Nat
  | .mk _ _ [] => 1
  | .mk _ _ (c :: cs) => leavesList (c :: cs)

def leavesList : List EvoNode → Nat
  | [] => 0
  | c :: cs => c.leaves + leavesList cs

end

-- ==================== modularized logger (pkapp/db/logging.py) ====================

/-- A SQLite cell value (REAL durations are carried as integers; no claim
inspects them). -/
inductive SqlVal where
  | null : SqlVal
  | int : Int → SqlVal
  | text : String → SqlVal
deriving DecidableEq

def optTextVal : Option String → SqlVal
  | none => .null
  | some s => .text s

def optIntVal : Option Int → SqlVal
  | none => .null
  | some i => .int i

/-- The `api_calls` table of one SQLite database file. -/
structure SqlTable where
  cols : List String
  rows : List (List SqlVal)
  indexes : List (String × String)
deriving DecidableEq

/-- Column list of the table `db_init` (pkapp/db/logging.py) creates:
note the absence of an `endpoint` column. -/
def modularCols : List String :=
  [ "id", "ts_utc", "identifier", "url", "status", "duration_ms", "payload_json" ]

/-- Column list named by the INSERT of `save_api_call`
(pkapp/db/logging.py). -/
def insertCols : List String :=
  [ "ts_utc", "endpoint", "identifier", "url", "status", "duration_ms", "payload_json" ]

/-- `CREATE INDEX IF NOT EXISTS name ON api_calls(col)`: skipped when the
index name exists, an `OperationalError` when the column does not. -/
def createIndexE (t : SqlTable) (idxName col : String) : Except String SqlTable :=
  if (t.indexes.map Prod.fst).contains idxName then .ok t
  else if t.cols.contains col then
    .ok { t with indexes := t.indexes ++ [(idxName, col)] }
  else .error ("no such column: " ++ col)

/-- `INSERT INTO api_calls (cols...) VALUES (...)`: an `OperationalError`
when a named column is missing from the table. -/
def insertE (t : SqlTable) (cols : List String) (vals : List SqlVal) :
    Except String SqlTable :=
  if cols.all t.cols.contains then .ok { t with rows := t.rows ++ [vals] }
  else .error "no such column"

/-- `db_init` (pkapp/db/logging.py).  The DDL statements autocommit one by
one; the failing `CREATE INDEX ... ON api_calls(endpoint)` is caught by the
blanket `except`, keeping the statements already executed.  `none` models a
database file with no `api_calls` table. -/
def db_init (t? : Option SqlTable) : Option SqlTable :=
  let t0 := match t? with
    | some t => t
    | none => ⟨modularCols, [], []⟩
  match createIndexE t0 "idx_api_calls_ts" "ts_utc" with
  | .error _ => some t0
  | .ok t1 =>
    match createIndexE t1 "idx_api_calls_endpoint" "endpoint" with
    | .error _ => some t1
    | .ok t2 => some t2

/-- `save_api_call` (pkapp/db/logging.py).  Returns the store afterwards
and whether an INSERT was attempted at all.  Every failure (absent table,
unknown column, serialization) is swallowed exactly as the source's
`try/except` blocks do, so the function is total. -/
def save_api_call (ts : String) (endpoint identifier : Option String)
    (url : String) (status : Option Int) (durationMs : Option Int)
    (payload : Json) (serFault : Bool) (t? : Option SqlTable) :
    Option SqlTable × Bool :=
  if endpoint ≠ some "pokemon" then (t?, false)
  else
    let payloadText := if serFault then none else some (dumps payload)
    match t? with
    | none => (none, true)
    | some t =>
      match insertE t insertCols
        [ .text ts, optTextVal endpoint, optTextVal identifier, .text url,
          optIntVal status, optIntVal durationMs, optTextVal payloadText ] with
      | .error _ => (some t, true)
      | .ok t' => (some t', true)

-- ==================== concrete fixtures ====================

/-- A network answering every URL with a 200 null-JSON body. -/
def netOk : Net := fun _ => .resp 200 "" (some .null)

/-- A healthy, empty log store. -/
def emptyStore : LogStore := ⟨.ok, []⟩

/-- A tiny species payload fixture: two flavor-text entries, German then
English. -/
def speciesKvsFix : List (String × Json) :=
  [ ("id", .num 1), ("name", .str "bulbasaur"),
    ("flavor_text_entries", .arr
      [ .obj [ ("flavor_text", .str "Hallo"),
               ("language", .obj [("name", .str "de")]) ],
        .obj [ ("flavor_text", .str "Hi\nthere"),
               ("language", .obj [("name", .str "en")]) ] ]) ]

/-- The decoded entries of `speciesKvsFix`. -/
def speciesEntriesFix : List FlavorEntry :=
  [ ⟨some (.str "de"), some (.str "Hallo")⟩,
    ⟨some (.str "en"), some (.str "Hi\nthere")⟩ ]

-- ==================== helper lemmas ====================

mutual

theorem buildEvoPaths_length : ∀ (n : EvoNode) (a : List EvoStep)
    (l : List (List String)), (buildEvoPaths n a l).length = n.leaves
  | .mk sp det [], a, l => by
    simp [buildEvoPaths, EvoNode.leaves]
  | .mk sp det (c :: cs), a, l => by
    simp only [buildEvoPaths, EvoNode.leaves]
    exact buildEvoPathsList_length (c :: cs) _ _

theorem buildEvoPathsList_length : ∀ (cs : List EvoNode) (a : List EvoStep)
    (l : List (List String)), (buildEvoPathsList cs a l).length = leavesList cs
  | [], a, l => by simp [buildEvoPathsList, leavesList]
  | c :: cs, a, l => by
    simp only [buildEvoPathsList, leavesList, List.length_append]
    rw [buildEvoPaths_length c, buildEvoPathsList_length cs]

end

mutual

theorem buildEvoPaths_shape : ∀ (n : EvoNode) (a : List EvoStep)
    (l : List (List String)) (p : EvoPath), p ∈ buildEvoPaths n a l →
    ∃ rest, p.steps = a ++ mkStep n :: rest
      ∧ p.links.length + a.length + 1 = l.length + p.steps.length
  | .mk sp det [], a, l, p, hp => by
    simp only [buildEvoPaths, List.mem_singleton] at hp
    subst hp
    refine ⟨[], by simp, by simp; omega⟩
  | .mk sp det (c :: cs), a, l, p, hp => by
    simp only [buildEvoPaths] at hp
    obtain ⟨rest, hsteps, hlen⟩ := buildEvoPathsList_shape (c :: cs) _ _ p hp
    rw [List.append_assoc] at hsteps
    exact ⟨_, hsteps, by simp at hlen ⊢; omega⟩

theorem buildEvoPathsList_shape : ∀ (cs : List EvoNode) (s : List EvoStep)
    (l : List (List String)) (p : EvoPath), p ∈ buildEvoPathsList cs s l →
    ∃ rest, p.steps = s ++ rest
      ∧ p.links.length + s.length = l.length + p.steps.length
  | [], s, l, p, hp => by simp [buildEvoPathsList] at hp
  | c :: cs, s, l, p, hp => by
    simp only [buildEvoPathsList, List.mem_append] at hp
    rcases hp with hp | hp
    · obtain ⟨rest, hsteps, hlen⟩ := buildEvoPaths_shape c _ _ p hp
      exact ⟨mkStep c :: rest, hsteps, by simp at hlen ⊢; omega⟩
    · obtain ⟨rest, hsteps, hlen⟩ := buildEvoPathsList_shape cs _ _ p hp
      exact ⟨rest, hsteps, by omega⟩

end

-- ==================== claim theorems ====================

/-- C1: for every kind in the fixed allow-list and every optional
identifier, when the upstream GET completes, `_proxy_endpoint` returns
exactly the upstream status code, with payload equal to the parsed upstream
body when that body is valid JSON and `{error: <raw body text>}` when it is
not; the non-JSON fallback is returned normally, never raised. -/
theorem proxy_mirrors_upstream_when_get_completes
    (endpoint : String) (identifier : Option String) (net : Net)
    (st : LogStore) (sf : Bool) (ts : String) (dur : Int)
    (url text : String) (status : Nat) (jsonBody : Option Json)
    (_hmem : ENDPOINTS.contains endpoint = true)
    (hurl : apiUrlBuild endpoint identifier none = .ok url)
    (hnet : net url = .resp status text jsonBody) :
    (proxyEndpoint endpoint identifier net st sf ts dur).resp
      = (jsonBody.getD (Json.obj [("error", .str text)]), status) := by
  unfold proxyEndpoint
  rw [hurl]
  dsimp only
  rw [hnet]
  cases jsonBody <;> rfl

/-- Witness for C1 at kind `pokemon`, identifier `25`, a 404 upstream
response whose body is not valid JSON. -/
theorem proxy_mirrors_upstream_when_get_completes_witness :
    ENDPOINTS.contains "pokemon" = true
    ∧ apiUrlBuild "pokemon" (some "25") none
        = .ok "https://pokeapi.co/api/v2/pokemon/25/"
    ∧ (proxyEndpoint "pokemon" (some "25")
        (fun _ => .resp 404 "Not Found" none) emptyStore false "t" 0).resp
      = (Json.obj [("error", .str "Not Found")], 404) :=
  ⟨by decide, rfl,
    proxy_mirrors_upstream_when_get_completes "pokemon" (some "25")
      (fun _ => .resp 404 "Not Found" none) emptyStore false "t" 0
      "https://pokeapi.co/api/v2/pokemon/25/" "Not Found" 404 none
      (by decide) rfl rfl⟩

/-- C2: for every kind outside `ENDPOINTS` and every identifier,
`_proxy_endpoint` returns 400 with payload
`{error: "Unknown API endpoint '<kind>'"}` and performs no upstream GET. -/
theorem unknown_endpoint_400_no_network
    (endpoint : String) (identifier : Option String) (net : Net)
    (st : LogStore) (sf : Bool) (ts : String) (dur : Int)
    (h : ENDPOINTS.contains endpoint = false) :
    (proxyEndpoint endpoint identifier net st sf ts dur).resp
      = (Json.obj [("error",
            .str ("Unknown API endpoint \x27" ++ endpoint ++ "\x27"))], 400)
    ∧ (proxyEndpoint endpoint identifier net st sf ts dur).urls = [] := by
  unfold proxyEndpoint apiUrlBuild
  rw [h]
  exact ⟨rfl, rfl⟩

/-- Witness for C2 at the unknown kind `pokemonz`. -/
theorem unknown_endpoint_400_no_network_witness :
    ENDPOINTS.contains "pokemonz" = false
    ∧ (proxyEndpoint "pokemonz" (some "7") netOk emptyStore false "t" 0).resp
        = (Json.obj [("error",
              .str ("Unknown API endpoint \x27" ++ "pokemonz" ++ "\x27"))], 400)
    ∧ (proxyEndpoint "pokemonz" (some "7") netOk emptyStore false "t" 0).urls = [] :=
  ⟨by decide,
    (unknown_endpoint_400_no_network "pokemonz" (some "7") netOk emptyStore
      false "t" 0 (by decide)).1,
    (unknown_endpoint_400_no_network "pokemonz" (some "7") netOk emptyStore
      false "t" 0 (by decide)).2⟩

/-- C3: the `(payload, status)` answered to the caller is identical whether
the log store works or faults (connect failure, missing table,
serialization failure): `_save_api_call` swallows every error, so the
generic proxy and the bespoke pokemon routes answer independently of the
store state; and the modularized `save_api_call` decides whether it even
attempts a write independently of store health and serialization faults. -/
theorem logging_failure_never_changes_response
    (endpoint : String) (identifier : Option String) (nameOrId : String)
    (args : String → Option String) (net : Net)
    (s₁ s₂ : LogStore) (f₁ f₂ : Bool) (ts : String) (dur : Int)
    (ep idf : Option String) (u : String) (stc dc : Option Int) (p : Json)
    (t₁ t₂ : Option SqlTable) :
    (proxyEndpoint endpoint identifier net s₁ f₁ ts dur).resp
      = (proxyEndpoint endpoint identifier net s₂ f₂ ts dur).resp
    ∧ (pokemonRoute nameOrId net s₁ f₁ ts dur).map Prod.fst
      = (pokemonRoute nameOrId net s₂ f₂ ts dur).map Prod.fst
    ∧ (pokemonSummaryRoute nameOrId net s₁ f₁ ts dur).map Prod.fst
      = (pokemonSummaryRoute nameOrId net s₂ f₂ ts dur).map Prod.fst
    ∧ (pokemonSpriteRoute nameOrId args net s₁ f₁ ts dur).map Prod.fst
      = (pokemonSpriteRoute nameOrId args net s₂ f₂ ts dur).map Prod.fst
    ∧ (save_api_call ts ep idf u stc dc p f₁ t₁).2
      = (save_api_call ts ep idf u stc dc p f₂ t₂).2 := by
  refine ⟨?_, ?_, ?_, ?_, ?_⟩
  · unfold proxyEndpoint
    cases apiUrlBuild endpoint identifier none with
    | error e => rfl
    | ok url =>
      dsimp only
      cases net url <;> rfl
  · unfold pokemonRoute
    dsimp only
    cases net (POKEAPI_BASE ++ pyLowerStrip nameOrId) <;> rfl
  · unfold pokemonSummaryRoute
    dsimp only
    cases net (POKEAPI_BASE ++ pyLowerStrip nameOrId) with
    | exn m => rfl
    | resp s t j =>
      dsimp only
      by_cases hs : s ≠ 200
      · rw [if_pos hs, if_pos hs]
        rfl
      · rw [if_neg hs, if_neg hs]
        cases j with
        | none => rfl
        | some d =>
          dsimp only
          cases summarizePokemonE d <;> rfl
  · unfold pokemonSpriteRoute
    dsimp only
    cases net (POKEAPI_BASE ++ pyLowerStrip nameOrId) with
    | exn m => rfl
    | resp s t j =>
      dsimp only
      by_cases hs : s ≠ 200
      · rw [if_pos hs, if_pos hs]
        rfl
      · rw [if_neg hs, if_neg hs]
        cases j with
        | none => rfl
        | some d => cases d <;> rfl
  · unfold save_api_call
    by_cases he : ep ≠ some "pokemon"
    · rw [if_pos he, if_pos he]
    · rw [if_neg he, if_neg he]
      dsimp only
      cases t₁ with
      | none => cases t₂ with
        | none => rfl
        | some t => dsimp only; cases insertE t insertCols _ <;> rfl
      | some t => cases t₂ with
        | none => dsimp only; cases insertE t insertCols _ <;> rfl
        | some t' =>
          dsimp only
          cases insertE t insertCols _ <;> cases insertE t' insertCols _ <;> rfl
/-- C4 counterexample: with an upstream 500 whose JSON body is
`{error: "boom"}`, the sprite route answers 404 with
`{error: "Pokemon not found"}` — neither the upstream status nor the
upstream error payload is propagated, contradicting the claim that every
derived route propagates the upstream status verbatim. -/
theorem sprite_route_does_not_propagate_upstream_status :
    (pokemonSpriteRoute "pikachu" (fun _ => none)
        (fun _ => .resp 500 "err" (some (errJson "boom")))
        emptyStore false "t" 0).map Prod.fst
      = some (errJson "Pokemon not found", 404)
    ∧ (404 : Nat) ≠ 500
    ∧ errJson "Pokemon not found" ≠ errJson "boom" := by
  refine ⟨rfl, by decide, ?_⟩
  simp [errJson]

/-- C4 (amended): `pokemon_summary` propagates the upstream status and
payload verbatim on upstream failure and returns 200 on successful reshape;
`pokemon_sprite` returns 200 on successful reshape (a 200 upstream response
whose JSON body is an object) but on every non-200 upstream status answers
the fixed `({error: "Pokemon not found"}, 404)` instead of propagating it. -/
theorem derived_routes_status_behaviour
    (nameOrId : String) (args : String → Option String) (net : Net)
    (st : LogStore) (sf : Bool) (ts : String) (dur : Int)
    (status : Nat) (text : String) (jsonBody : Option Json)
    (hnet : net (POKEAPI_BASE ++ pyLowerStrip nameOrId)
      = .resp status text jsonBody) :
    (status ≠ 200 →
      (pokemonSummaryRoute nameOrId net st sf ts dur).map Prod.fst
          = some (jsonBody.getD (errJson text), status)
      ∧ (pokemonSpriteRoute nameOrId args net st sf ts dur).map Prod.fst
          = some (errJson "Pokemon not found", 404))
    ∧ (∀ data txt, status = 200 → jsonBody = some data →
        summarizePokemonE data = some txt →
        (pokemonSummaryRoute nameOrId net st sf ts dur).map Prod.fst
          = some (Json.obj [ ("summary", .str txt),
              ("name_or_id", .str nameOrId), ("id", jsonGetD data "id") ], 200))
    ∧ (∀ kvs, status = 200 → jsonBody = some (.obj kvs) →
        (pokemonSpriteRoute nameOrId args net st sf ts dur).map Prod.fst
          = some (Json.obj [ ("pokemon", .str nameOrId),
              ("id", jsonGetD (.obj kvs) "id"),
              ("sprite_url", .str (spriteUrlBuild "pokemon" (jsonGetD (.obj kvs) "id")
                (parseSpriteArgs args))),
              ("options", spriteOptsJson (parseSpriteArgs args)) ], 200)) := by
  refine ⟨fun h => ⟨?_, ?_⟩, fun data txt h200 hj hsum => ?_, fun kvs h200 hj => ?_⟩
  · unfold pokemonSummaryRoute
    dsimp only
    rw [hnet]
    dsimp only
    rw [if_pos h]
    rfl
  · unfold pokemonSpriteRoute
    dsimp only
    rw [hnet]
    dsimp only
    rw [if_pos h]
    rfl
  · subst h200 hj
    unfold pokemonSummaryRoute
    dsimp only
    rw [hnet]
    dsimp only
    rw [if_neg (by simp), hsum]
    rfl
  · subst h200 hj
    unfold pokemonSpriteRoute
    dsimp only
    rw [hnet]
    dsimp only
    rw [if_neg (by simp)]
    rfl

/-- Witness for C4 (amended) at a concrete 500 upstream response. -/
theorem derived_routes_status_behaviour_witness :
    (pokemonSummaryRoute "x" (fun _ => .resp 500 "oops" none)
        emptyStore false "t" 0).map Prod.fst
      = some (errJson "oops", 500)
    ∧ (pokemonSpriteRoute "x" (fun _ => none) (fun _ => .resp 500 "oops" none)
        emptyStore false "t" 0).map Prod.fst
      = some (errJson "Pokemon not found", 404) :=
  (derived_routes_status_behaviour "x" (fun _ => none)
      (fun _ => .resp 500 "oops" none) emptyStore false "t" 0
      500 "oops" none rfl).1 (by decide)

/-- C6: for a species payload fetched with upstream status 200,
`full=false` answers the fixed projection — which never contains the raw
`flavor_text_entries` key — whose derived `flavor_text` is the last English
entry in upstream order with `"\n"` and `"\f"` replaced by spaces (empty
when no English entry exists), and `full=true` answers the untouched
upstream payload. -/
theorem species_summary_projection
    (identifier : String) (net : Net) (st : LogStore) (sf : Bool)
    (ts : String) (dur : Int) (u text : String) (kvs : List (String × Json))
    (es : List FlavorEntry) (txt : String)
    (hurl : apiUrlBuild "pokemon-species" (some identifier) none = .ok u)
    (hnet : net u = .resp 200 text (some (.obj kvs)))
    (hdec : decodeEntries kvs = some es)
    (hflav : getLatestEnglishFlavorTextE es = some txt) :
    ((pokemonSpeciesRoute identifier false net st sf ts dur).map
        (fun r => r.resp) = some (speciesSummary identifier kvs txt, 200)
      ∧ jsonGet (speciesSummary identifier kvs txt) "flavor_text_entries" = none
      ∧ jsonGet (speciesSummary identifier kvs txt) "flavor_text"
          = some (.str txt)
      ∧ ((es.filter isEnEntry).getLast? = none → txt = "")
      ∧ (∀ fe s, (es.filter isEnEntry).getLast? = some fe →
          fe.flavorText = some (.str s) →
          txt = replaceChar '\x0c' ' ' (replaceChar '\n' ' ' s)))
    ∧ (pokemonSpeciesRoute identifier true net st sf ts dur).map
        (fun r => r.resp) = some (.obj kvs, 200) := by
  refine ⟨⟨?_, rfl, rfl, ?_, ?_⟩, ?_⟩
  · unfold pokemonSpeciesRoute proxyEndpoint
    rw [hurl]
    dsimp only
    rw [hnet]
    dsimp only
    rw [if_neg (by simp)]
    rw [hdec]
    dsimp only
    rw [hflav]
    rfl
  · intro hnone
    simp [getLatestEnglishFlavorTextE, hnone] at hflav
    exact hflav.symm
  · intro fe s hlast hft
    simp [getLatestEnglishFlavorTextE, hlast, hft] at hflav
    exact hflav.symm
  · unfold pokemonSpeciesRoute proxyEndpoint
    rw [hurl]
    dsimp only
    rw [hnet]
    dsimp only
    rw [if_pos (by simp)]
    rfl

/-- Witness for C6: the fixture payload has English flavor text
`"Hi there"`, the projection carries it and drops the raw entries. -/
theorem species_summary_projection_witness :
    apiUrlBuild "pokemon-species" (some "1") none
      = .ok "https://pokeapi.co/api/v2/pokemon-species/1/"
    ∧ decodeEntries speciesKvsFix = some speciesEntriesFix
    ∧ getLatestEnglishFlavorTextE speciesEntriesFix = some "Hi there"
    ∧ jsonGet (speciesSummary "1" speciesKvsFix "Hi there")
        "flavor_text_entries" = none
    ∧ jsonGet (speciesSummary "1" speciesKvsFix "Hi there") "flavor_text"
        = some (.str "Hi there") :=
  ⟨rfl, rfl, rfl,
    (species_summary_projection "1"
      (fun _ => .resp 200 "" (some (.obj speciesKvsFix))) emptyStore false "t" 0
      "https://pokeapi.co/api/v2/pokemon-species/1/" "" speciesKvsFix
      speciesEntriesFix "Hi there" rfl rfl rfl rfl).1.2.1,
    (species_summary_projection "1"
      (fun _ => .resp 200 "" (some (.obj speciesKvsFix))) emptyStore false "t" 0
      "https://pokeapi.co/api/v2/pokemon-species/1/" "" speciesKvsFix
      speciesEntriesFix "Hi there" rfl rfl rfl rfl).1.2.2.1⟩

/-- C7: the sprite path builder is a pure function of its arguments and
resolves segments by the fixed priority ladder — for `pokemon`: `model`
wins alone; else `other` with `official-artwork` and `dream-world`
appending independently; else `back`, `shiny`, `female` combining in that
order; for `items` first-match-wins yields at most one segment — and the
final path is `category/[segments...]/{id}.png`, giving the three concrete
paths of the claim. -/
theorem sprite_path_builder_ladder (o : SpriteOpts) (spriteType : String)
    (spriteId : Json) :
    (o.model = true → parseSpriteOptions "pokemon" o = ["model"])
    ∧ (o.model = false → o.other = true →
        parseSpriteOptions "pokemon" o
          = ["other"] ++ (if o.official_artwork then ["official-artwork"] else [])
              ++ (if o.dream_world then ["dream-world"] else []))
    ∧ (o.model = false → o.other = false →
        parseSpriteOptions "pokemon" o
          = (if o.back then ["back"] else []) ++ (if o.shiny then ["shiny"] else [])
              ++ (if o.female then ["female"] else []))
    ∧ (parseSpriteOptions "items" o).length ≤ 1
    ∧ sprite_filepath_build spriteType spriteId o
        = pyJoin "/" ([spriteType] ++ parseSpriteOptions spriteType o
            ++ [pyStr spriteId ++ "." ++ SPRITE_EXT])
    ∧ sprite_filepath_build "pokemon" (.num 25) { shiny := true }
        = "pokemon/shiny/25.png"
    ∧ sprite_filepath_build "pokemon" (.num 25)
        { other := true, official_artwork := true }
        = "pokemon/other/official-artwork/25.png"
    ∧ sprite_filepath_build "items" (.num 1) { gen3 := true }
        = "items/gen3/1.png" := by
  refine ⟨fun hm => ?_, fun hm ho => ?_, fun hm ho => ?_, ?_, rfl,
    by decide, by decide, by decide⟩
  · simp [parseSpriteOptions, hm]
  · simp [parseSpriteOptions, hm, ho]
  · simp [parseSpriteOptions, hm, ho]
  · cases hb : o.berries <;> cases hd : o.dream_world <;> cases hg3 : o.gen3
      <;> cases hg5 : o.gen5 <;> cases hu : o.underground
      <;> simp [parseSpriteOptions, hb, hd, hg3, hg5, hu]

/-- Witness for C7: the exclusive `model` branch at a concrete option set. -/
theorem sprite_path_builder_ladder_witness :
    parseSpriteOptions "pokemon" { model := true } = ["model"] :=
  (sprite_path_builder_ladder { model := true } "pokemon" (.num 25)).1 rfl

/-- C8 counterexample: the generic proxy fetches the identifier verbatim —
for identifier `" Pikachu "` the URL keeps the spaces and the capital,
while the claimed lower-cased/trimmed URL differs. -/
theorem proxy_url_keeps_identifier_verbatim :
    (proxyEndpoint "pokemon" (some " Pikachu ") netOk emptyStore
        false "t" 0).urls
      = ["https://pokeapi.co/api/v2/pokemon/ Pikachu /"]
    ∧ "https://pokeapi.co/api/v2/pokemon/ Pikachu /"
        ≠ BASE_URL ++ "/" ++ "pokemon" ++ "/" ++ pyLowerStrip " Pikachu " ++ "/" := by
  exact ⟨rfl, by decide⟩

/-- C8 (amended): for every valid kind, the upstream URL is base-url `/`
kind `/` identifier **verbatim** (no lower-casing, no trimming) with a
trailing slash for a non-empty identifier, and base-url `/` kind with no
trailing slash when no identifier is given. -/
theorem api_url_build_shape (endpoint identifier : String)
    (hmem : ENDPOINTS.contains endpoint = true) :
    apiUrlBuild endpoint (some identifier) none
      = .ok (BASE_URL ++ "/" ++ endpoint ++ "/" ++ identifier
          ++ (if identifier = "" then "" else "/"))
    ∧ apiUrlBuild endpoint none none = .ok (BASE_URL ++ "/" ++ endpoint) := by
  constructor
  · unfold apiUrlBuild
    rw [if_pos hmem]
    by_cases hid : identifier = ""
    · subst hid
      simp [pyJoin, truthyOptStr, String.append_assoc]
    · simp [pyJoin, truthyOptStr, hid, String.append_assoc]
  · unfold apiUrlBuild
    rw [if_pos hmem]
    simp [pyJoin, truthyOptStr]

/-- Witness for C8 (amended) at kind `berry`, identifier `x`. -/
theorem api_url_build_shape_witness :
    apiUrlBuild "berry" (some "x") none
      = .ok (BASE_URL ++ "/" ++ "berry" ++ "/" ++ "x"
          ++ (if "x" = "" then "" else "/"))
    ∧ apiUrlBuild "berry" none none = .ok (BASE_URL ++ "/" ++ "berry") :=
  api_url_build_shape "berry" "x" (by decide)

/-- Helper: a valid proxy call fetches exactly its built URL, whatever the
network answers. -/
theorem proxyEndpoint_urls (endpoint : String) (identifier : Option String)
    (net : Net) (st : LogStore) (sf : Bool) (ts : String) (dur : Int)
    (u : String) (hurl : apiUrlBuild endpoint identifier none = .ok u) :
    (proxyEndpoint endpoint identifier net st sf ts dur).urls = [u] := by
  unfold proxyEndpoint
  rw [hurl]
  dsimp only
  cases net u <;> rfl

/-- C9 counterexample: `/api/pokemon` defaults `limit`/`offset` to 20/0 and
passes them onto the upstream URL, but the `berry` list route (one of the
other list endpoints) fetches an upstream URL with no pagination
parameters at all — the claim fails outside `/api/pokemon`. -/
theorem berry_list_ignores_pagination :
    pokemonListUrl none none
      = "https://pokeapi.co/api/v2/pokemon?limit=20&offset=0"
    ∧ (berryRoute none netOk emptyStore false "t" 0).urls
        = ["https://pokeapi.co/api/v2/berry"]
    ∧ "https://pokeapi.co/api/v2/berry"
        ≠ "https://pokeapi.co/api/v2/berry" ++ "?limit=20&offset=0" := by
  exact ⟨rfl, rfl, by decide⟩

/-- C9 (amended): only `/api/pokemon`'s list handler reads `limit` and
`offset` (defaulting to 20 and 0) and appends them verbatim to the
upstream URL; the other list routes delegate to the generic proxy, whose
upstream URL is just base-url `/` kind with no pagination parameters. -/
theorem list_pagination_only_for_pokemon (la oa : Option Int) (net : Net)
    (st : LogStore) (sf : Bool) (ts : String) (dur : Int) :
    pokemonListUrl la oa
      = pyJoin "/" [BASE_URL, "pokemon"] ++ "?limit=" ++ toString (la.getD 20)
          ++ "&offset=" ++ toString (oa.getD 0)
    ∧ ∀ k, k ∈ (["berry", "item", "location", "region", "move", "ability",
          "type"] : List String) →
        (proxyEndpoint k none net st sf ts dur).urls = [BASE_URL ++ "/" ++ k] := by
  refine ⟨rfl, ?_⟩
  intro k hk
  fin_cases hk <;> exact proxyEndpoint_urls _ none net st sf ts dur _ rfl

/-- Witness for C9 (amended): the berry list route fetches exactly
`base-url/berry`. -/
theorem list_pagination_only_for_pokemon_witness :
    (proxyEndpoint "berry" none netOk emptyStore false "t" 0).urls
      = [BASE_URL ++ "/" ++ "berry"] :=
  (list_pagination_only_for_pokemon none none netOk emptyStore
      false "t" 0).2 "berry" (by decide)

/-- C10: the modularized `db_init` creates `api_calls` without an
`endpoint` column while its second `CREATE INDEX` and `save_api_call`'s
INSERT both name one; so against a store initialized by this `db_init` the
INSERT always fails (swallowed) and no record is ever persisted, and a
call whose endpoint differs from `"pokemon"` returns before attempting any
write. -/
theorem modular_logger_never_persists (ts : String) (ep idf : Option String)
    (u : String) (stc dc : Option Int) (p : Json) (sf : Bool)
    (t? : Option SqlTable) :
    (∀ t, db_init none = some t →
        t.cols = modularCols
        ∧ t.cols.contains "endpoint" = false
        ∧ t.indexes = [("idx_api_calls_ts", "ts_utc")])
    ∧ insertCols.contains "endpoint" = true
    ∧ (∀ t, db_init none = some t →
        (save_api_call ts ep idf u stc dc p sf (some t)).1 = some t)
    ∧ (ep ≠ some "pokemon" →
        (save_api_call ts ep idf u stc dc p sf t?).2 = false) := by
  have hdb : db_init none
      = some ⟨modularCols, [], [("idx_api_calls_ts", "ts_utc")]⟩ := rfl
  refine ⟨?_, by decide, ?_, ?_⟩
  · intro t ht
    rw [hdb] at ht
    cases ht
    exact ⟨rfl, by decide, rfl⟩
  · intro t ht
    rw [hdb] at ht
    cases ht
    unfold save_api_call
    by_cases he : ep ≠ some "pokemon"
    · rw [if_pos he]
    · rw [if_neg he]
      rfl
  · intro he
    unfold save_api_call
    rw [if_pos he]

/-- Witness for C10: with a `pokemon` endpoint and the table `db_init`
builds, the insert is attempted but the store is unchanged; with a
`berry` endpoint no write is attempted. -/
theorem modular_logger_never_persists_witness :
    (save_api_call "t" (some "pokemon") none "u" none none .null false
        (some ⟨modularCols, [], [("idx_api_calls_ts", "ts_utc")]⟩)).1
      = some ⟨modularCols, [], [("idx_api_calls_ts", "ts_utc")]⟩
    ∧ (save_api_call "t" (some "berry") none "u" none none .null false
        none).2 = false :=
  ⟨(modular_logger_never_persists "t" (some "pokemon") none "u" none none
      .null false none).2.2.1 _ rfl,
    (modular_logger_never_persists "t" (some "berry") none "u" none none
      .null false none).2.2.2 (by decide)⟩

end Pk
